import Mathlib

/-!
Verification of `generate_background_v2.py`, a one-shot matplotlib script that
layers a gradient, sine waves, random triangulated meshes, a quiver field,
text labels, circles, a grid, corner marks and random particles onto a
10×10 data canvas and saves the result as a PNG and a JPEG.

Coordinates, opacities and line widths are embedded as rationals (the script's
literals are all decimal fractions).  The NumPy PRNG is abstracted as a
`UnitStream`: `u s i` is the `i`-th unit-interval sample produced after
`np.random.seed s`; `np.random.uniform(low, high)` maps a unit sample `v` to
`low + (high - low) * v`, and `np.random.uniform(low, high, n)` consumes `n`
consecutive samples.  Quantities that the script computes with `np.sin`,
`np.sqrt` and `np.exp` are embedded over `ℝ`.
-/

namespace HeroBackground

/-- A seeded stream of unit-interval pseudo-random samples: `u s i` is the
`i`-th sample drawn after `np.random.seed s`. -/
def UnitStream : Type := ℕ → ℕ → ℚ

/-- The contract of the PRNG: every unit sample lies in `[0, 1)`. -/
def ValidStream (u : UnitStream) : Prop := ∀ s i, 0 ≤ u s i ∧ u s i < 1

/-- `np.random.uniform(low, high)` applied to the `i`-th sample after seeding
with `s`. -/
def uniformAt (u : UnitStream) (s : ℕ) (low high : ℚ) (i : ℕ) : ℚ :=
  low + (high - low) * u s i

/-- `np.random.uniform(low, high, n)` drawing the samples `start`,
`start+1`, …, `start+n-1` of the stream seeded with `s`. -/
def uniformList (u : UnitStream) (s : ℕ) (low high : ℚ) (start n : ℕ) : List ℚ :=
  (List.range n).map (fun k => uniformAt u s low high (start + k))

/-- One drawing call issued on the axes, in the script's vocabulary.
`circle` carries the `fill` flag of `matplotlib.patches.Circle`. -/
inductive DrawOp : Type
  | imshow (x0 x1 y0 y1 alpha : ℚ)
  | wave (freq phaseCoeff alpha lw offset : ℚ)
  | triplot (xs ys : List ℚ) (lw alpha : ℚ)
  | quiver (rows cols : ℕ) (alpha width scale headwidth headlength : ℚ)
  | text (x y : ℚ) (tex : String) (fontsize alpha : ℚ)
  | circle (cx cy radius lw alpha : ℚ) (fill : Bool)
  | gridline (x0 y0 x1 y1 lw alpha : ℚ)
  | cornerSeg (x0 y0 x1 y1 lw alpha : ℚ)
  | particle (x y size alpha : ℚ)
  deriving DecidableEq

/-- The visual layer a draw call belongs to. -/
inductive OpKind : Type
  | imshow | wave | triplot | quiver | text | circle | gridline | cornerSeg | particle
  deriving DecidableEq

/-- Layer tag of a draw call. -/
def DrawOp.kind : DrawOp → OpKind
  | .imshow _ _ _ _ _ => .imshow
  | .wave _ _ _ _ _ => .wave
  | .triplot _ _ _ _ => .triplot
  | .quiver _ _ _ _ _ _ _ => .quiver
  | .text _ _ _ _ _ => .text
  | .circle _ _ _ _ _ _ => .circle
  | .gridline _ _ _ _ _ _ => .gridline
  | .cornerSeg _ _ _ _ _ _ => .cornerSeg
  | .particle _ _ _ _ => .particle

/-- Opacity passed to the drawing call. -/
def DrawOp.alpha : DrawOp → ℚ
  | .imshow _ _ _ _ a => a
  | .wave _ _ a _ _ => a
  | .triplot _ _ _ a => a
  | .quiver _ _ a _ _ _ _ => a
  | .text _ _ _ _ a => a
  | .circle _ _ _ _ a _ => a
  | .gridline _ _ _ _ _ a => a
  | .cornerSeg _ _ _ _ _ a => a
  | .particle _ _ _ a => a

/-! ### Layer 1: gradient background (`ax.imshow`, extent `[0,10,0,10]`, alpha 1) -/

def backgroundOps : List DrawOp := [.imshow 0 10 0 10 1]

/-! ### Layer 2: wave strokes

`wave_configs` lists `(freq, phase, alpha_val, lw, offset)`; the phase is
stored as its coefficient of `π` (the script's phases are `0`, `π/3`, `π/2`,
`π`, `3π/4`). -/

def wave_configs : List (ℚ × ℚ × ℚ × ℚ × ℚ) :=
  [(9/5, 0, 1/5, 5/2, 5),
   (12/5, 1/3, 9/50, 2, 9/2),
   (16/5, 1/2, 3/20, 9/5, 11/2),
   (2, 1, 3/25, 11/5, 6),
   (19/5, 3/4, 1/10, 3/2, 4)]

def waveOps : List DrawOp :=
  wave_configs.map (fun (freq, phase, alpha_val, lw, offset) =>
    .wave freq phase alpha_val lw offset)

/-- The wave ordinate
`y_wave = offset + 1.2 * np.sin(freq * t + phase) + 0.3 * np.sin(freq * 2 * t)`,
with the phase given as its coefficient of `π`. -/
noncomputable def waveY (freq phaseCoeff offset : ℚ) (t : ℝ) : ℝ :=
  (offset : ℝ) + 1.2 * Real.sin ((freq : ℝ) * t + (phaseCoeff : ℝ) * Real.pi)
    + 0.3 * Real.sin ((freq : ℝ) * 2 * t)

/-! ### Layer 3: finite-element mesh regions (after `np.random.seed(42)`)

`mesh_regions` lists `((x0, x1, y0, y1), n_pts)`.  Each region draws `n_pts`
x-samples then `n_pts` y-samples from the seed-42 stream, consuming the stream
sequentially; the `start` offsets below are the cumulative sample counts
(region 0 uses samples 0–29, region 1 uses 30–53, region 2 uses 54–89). -/

def mesh_regions : List ((ℚ × ℚ × ℚ × ℚ) × ℕ) :=
  [((1/2, 5/2, 1/2, 5/2), 15),
   ((7, 19/2, 7, 19/2), 12),
   ((3, 6, 2, 5), 18)]

/-- The scattered points of one mesh region: `n` x-coordinates uniform on
`[x0, x1)` followed by `n` y-coordinates uniform on `[y0, y1)`. -/
def meshRegionPts (u : UnitStream) (start : ℕ) (x0 x1 y0 y1 : ℚ) (n : ℕ) :
    List ℚ × List ℚ :=
  (uniformList u 42 x0 x1 start n, uniformList u 42 y0 y1 (start + n) n)

/-- The three mesh point clouds, in the order the script generates them. -/
def meshLayers (u : UnitStream) : List (List ℚ × List ℚ) :=
  [meshRegionPts u 0 (1/2) (5/2) (1/2) (5/2) 15,
   meshRegionPts u 30 7 (19/2) 7 (19/2) 12,
   meshRegionPts u 54 3 6 2 5 18]

def meshOps (u : UnitStream) : List DrawOp :=
  (meshLayers u).map (fun r => .triplot r.1 r.2 (3/5) (3/25))

/-! ### Layer 4: quiver flow field -/

def quiverOps : List DrawOp := [.quiver 12 12 (3/20) (1/250) 12 (7/2) (9/2)]

/-- One coordinate of `np.mgrid[0.8:9.2:12j]`: twelve evenly spaced values
from `0.8` to `9.2` inclusive. -/
def gridCoord (k : ℕ) : ℚ := 4/5 + (k : ℚ) * ((46/5 - 4/5) / 11)

/-- `dx = X_grid - 5.0` at grid cell `(i, j)` (row `i`, column `j`). -/
def flowDx (j : ℕ) : ℚ := gridCoord j - 5

/-- `dy = Y_grid - 5.0` at grid cell `(i, j)`. -/
def flowDy (i : ℕ) : ℚ := gridCoord i - 5

/-- `r = np.sqrt(dx**2 + dy**2) + 0.1` at grid cell `(i, j)`. -/
noncomputable def flowR (i j : ℕ) : ℝ :=
  Real.sqrt ((flowDx j : ℝ) ^ 2 + (flowDy i : ℝ) ^ 2) + 0.1

/-- `U = -dy / r * np.exp(-r / 4)` followed by `U += -0.15 * dx`. -/
noncomputable def flowU (i j : ℕ) : ℝ :=
  -(flowDy i : ℝ) / flowR i j * Real.exp (-flowR i j / 4) + -(0.15) * (flowDx j : ℝ)

/-- `V = dx / r * np.exp(-r / 4)` followed by `V += -0.15 * dy`. -/
noncomputable def flowV (i j : ℕ) : ℝ :=
  (flowDx j : ℝ) / flowR i j * Real.exp (-flowR i j / 4) + -(0.15) * (flowDy i : ℝ)

/-! ### Layer 5: text labels -/

def equations : List (String × (ℚ × ℚ) × ℚ) :=
  [("$\\nabla \\cdot \\mathbf\x7bu\x7d = 0$", (6/5, 44/5), 16),
   ("$\\nabla^2 p = -\\omega^2 c^\x7b-2\x7d p$", (41/5, 3/2), 14),
   ("$\\min_\x7b\\mathbf\x7bm\x7d\x7d \\, J(\\mathbf\x7bm\x7d)$", (17/2, 17/2), 16),
   ("$\\mathbf\x7bg\x7d = \\nabla_\x7b\\mathbf\x7bm\x7d\x7d J$", (3/2, 9/5), 14)]

def textOps : List DrawOp :=
  equations.map (fun (eq, pos, fsize) => .text pos.1 pos.2 eq fsize (9/50))

/-! ### Layer 6: concentric circle pairs

`circles` lists `(cx, cy, radius, alpha_val, lw)`.  Each entry adds an outer
unfilled circle and an inner one at the same centre with radius `* 0.6`,
linewidth `* 0.6` and alpha `* 0.5`. -/

def circles : List (ℚ × ℚ × ℚ × ℚ × ℚ) :=
  [(11/5, 36/5, 4/5, 1/10, 5/2),
   (39/5, 3, 7/10, 3/25, 11/5),
   (5, 26/5, 1, 2/25, 14/5)]

/-- The two patches added for one `circles` entry. -/
def circlePair (cx cy radius alpha_val lw : ℚ) : List DrawOp :=
  [.circle cx cy radius lw alpha_val false,
   .circle cx cy (radius * (3/5)) (lw * (3/5)) (alpha_val * (1/2)) false]

def circleOps : List DrawOp :=
  circles.flatMap (fun (cx, cy, radius, alpha_val, lw) => circlePair cx cy radius alpha_val lw)

/-! ### Layer 7: grid overlay (`np.linspace(0.5, 9.5, 15)`) -/

def gridPositions : List ℚ := (List.range 15).map (fun k => 1/2 + (k : ℚ) * (9/14))

def gridOps : List DrawOp :=
  gridPositions.flatMap (fun i =>
    [.gridline i 0 i 10 (3/10) (1/25), .gridline 0 i 10 i (3/10) (1/25)])

/-! ### Layer 8: corner accents -/

def corner_elements : List (ℚ × ℚ × ℚ × ℚ) :=
  [(3/10, 3/10, 1/2, 1/2),
   (97/10, 97/10, -(1/2), -(1/2))]

def cornerOps : List DrawOp :=
  corner_elements.flatMap (fun (cx, cy, dx, dy) =>
    [.cornerSeg cx cy (cx + dx) cy 3 (1/5), .cornerSeg cx cy cx (cy + dy) 3 (1/5)])

/-! ### Layer 9: particles (after `np.random.seed(123)`)

The script draws four consecutive blocks of 80 samples from the seed-123
stream: positions `px`, `py`, sizes, then alphas. -/

def n_particles : ℕ := 80

def px (u : UnitStream) : List ℚ := uniformList u 123 0 10 0 n_particles

def py (u : UnitStream) : List ℚ := uniformList u 123 0 10 n_particles n_particles

def sizes (u : UnitStream) : List ℚ := uniformList u 123 1 4 (2 * n_particles) n_particles

def alphas (u : UnitStream) : List ℚ :=
  uniformList u 123 (1/20) (3/20) (3 * n_particles) n_particles

def particleOps (u : UnitStream) : List DrawOp :=
  (List.range n_particles).map (fun i =>
    .particle (uniformAt u 123 0 10 i) (uniformAt u 123 0 10 (n_particles + i))
      (uniformAt u 123 1 4 (2 * n_particles + i))
      (uniformAt u 123 (1/20) (3/20) (3 * n_particles + i)))

/-- Every drawing call of one run of the script, in program order. -/
def drawOps (u : UnitStream) : List DrawOp :=
  backgroundOps ++ waveOps ++ meshOps u ++ quiverOps ++ textOps ++ circleOps
    ++ gridOps ++ cornerOps ++ particleOps u

/-! ### The run environment and the randomly generated content

The script takes no input: its only contact with the environment is the NumPy
PRNG (seeded with the constants 42 and 123), modelled by `unitStream`.  The
other `Env` fields stand for ambient state a run could in principle observe
but this script never reads. -/

/-- The ambient state of one execution. -/
structure Env : Type where
  unitStream : UnitStream
  clock : ℕ
  cwdFiles : String → Option String

/-- Everything one run generates with `np.random`: the mesh point clouds, the
particle positions, the particle sizes and the particle alphas. -/
structure RandomContent : Type where
  meshPts : List (List ℚ × List ℚ)
  particleX : List ℚ
  particleY : List ℚ
  particleSizes : List ℚ
  particleAlphas : List ℚ
  deriving DecidableEq

/-- The randomly generated content of the run made in environment `e`. -/
def randomContent (e : Env) : RandomContent :=
  ⟨meshLayers e.unitStream, px e.unitStream, py e.unitStream,
    sizes e.unitStream, alphas e.unitStream⟩

/-- The drawn layers of the run made in environment `e`. -/
def drawnContent (e : Env) : List DrawOp := drawOps e.unitStream

/-! ### Figure geometry and the two `savefig` calls -/

/-- `figsize=(19.2, 10.8)` width, inches. -/
def figWidthIn : ℚ := 96/5

/-- `figsize=(19.2, 10.8)` height, inches. -/
def figHeightIn : ℚ := 54/5

/-- `ax.set_xlim(0, 10)` span. -/
def xlimSpan : ℚ := 10

/-- `ax.set_ylim(0, 10)` span. -/
def ylimSpan : ℚ := 10

/-- Output encodings used by the script. -/
inductive ImgFormat : Type
  | png | jpg
  deriving DecidableEq

/-- The arguments of one `plt.savefig` call (colors kept as their string
literals; `bboxTight` models `bbox_inches='tight'`). -/
structure SaveCall : Type where
  filename : String
  format : ImgFormat
  dpi : ℕ
  bboxTight : Bool
  padInches : ℚ
  facecolor : String
  edgecolor : String
  transparent : Bool
  deriving DecidableEq

/-- The first `plt.savefig` call of the script. -/
def pngSave : SaveCall :=
  ⟨"hero-background.png", .png, 200, true, 0, "none", "none", true⟩

/-- The second `plt.savefig` call of the script (`transparent` keeps
matplotlib's default `False`). -/
def jpgSave : SaveCall :=
  ⟨"hero-background.jpg", .jpg, 200, true, 0, "#1937b4", "none", false⟩

/-- Whether the written file format carries an alpha channel: matplotlib's Agg
backend writes RGBA PNGs, while the JPEG format has no alpha channel. -/
def formatHasAlphaChannel : ImgFormat → Bool
  | .png => true
  | .jpg => false

/-- Alpha channel of the file a `savefig` call writes. -/
def SaveCall.hasAlphaChannel (c : SaveCall) : Bool := formatHasAlphaChannel c.format

/-- Side of the axes box, in inches, after matplotlib applies
`ax.set_aspect('equal')` (default `adjustable='box'`): the axes box — the
full `19.2 × 10.8` figure after `tight_layout(pad=0)` — is shrunk, keeping
the data extent `[0,10]×[0,10]`, so that an inch covers the same data span
horizontally and vertically; with equal spans the box becomes a square whose
side is the smaller figure dimension. -/
def axesBoxSideIn : ℚ := min (figWidthIn / xlimSpan) (figHeightIn / ylimSpan) * xlimSpan

/-- Pixel dimensions of the file a `savefig` call writes.  With
`bbox_inches='tight'`, `pad_inches=0` and `ax.axis('off')`, the saved bitmap
is cropped to the tight bounding box of the drawn content, which fills
exactly the equal-aspect axes box; the bitmap is that box at `dpi` dots per
inch. -/
def savedPixelDims (c : SaveCall) : ℚ × ℚ :=
  (axesBoxSideIn * c.dpi, axesBoxSideIn * c.dpi)

/-- Pixel dimensions the figure itself would rasterise to without the tight
bounding-box crop: figure size times DPI. -/
def figurePixelDims (c : SaveCall) : ℚ × ℚ :=
  (figWidthIn * c.dpi, figHeightIn * c.dpi)

/-! ### Process-level behaviour

The script is a straight-line module with no `try`/`except`.  `Step` lists
its externally visible stages in program order; `runSteps` executes them
against a failure oracle, propagating the first raised exception (there is no
handler to stop it) and performing the effects of the successfully completed
prefix only. -/

/-- One externally visible stage of the script. -/
inductive Step : Type
  | render
  | save (filename : String)
  | closeFig
  | printMsg (line : String)
  deriving DecidableEq

/-- An effect the process performs. -/
inductive Eff : Type
  | wroteFile (filename : String)
  | printed (line : String)
  deriving DecidableEq

/-- Effects of one successfully completed step. -/
def effOf : Step → List Eff
  | .render => []
  | .save n => [.wroteFile n]
  | .closeFig => []
  | .printMsg l => [.printed l]

/-- The stages of the script, in program order. -/
def script : List Step :=
  [.render,
   .save "hero-background.png",
   .save "hero-background.jpg",
   .closeFig,
   .printMsg "✓ High-quality background images generated successfully!",
   .printMsg "  - hero-background.png (transparent, 200 DPI)",
   .printMsg "  - hero-background.jpg (solid background, 200 DPI)"]

/-- Run steps against a failure oracle: the first failing step raises, the
exception propagates uncaught, later steps never run, and only the effects of
the completed prefix happen. -/
def runSteps (fail : Step → Option String) : List Step → List Eff × Option String
  | [] => ([], none)
  | s :: rest =>
    match fail s with
    | some e => ([], some e)
    | none =>
      let r := runSteps fail rest
      (effOf s ++ r.1, r.2)

/-- One process run of the script. -/
def runScript (fail : Step → Option String) : List Eff × Option String :=
  runSteps fail script

/-- Exit status of the process: 0 on success, 1 when an exception escaped. -/
def exitCode (r : List Eff × Option String) : ℕ :=
  match r.2 with
  | none => 0
  | some _ => 1

/-- The files a run wrote, in order. -/
def writtenFiles (r : List Eff × Option String) : List String :=
  r.1.filterMap (fun e => match e with | .wroteFile n => some n | .printed _ => none)

/-- Apply one effect to a directory state (file name ↦ contents); writing a
file overwrites any existing file of that name. -/
def applyEff (fs : String → Option String) : Eff → (String → Option String)
  | .wroteFile n => fun m => if m = n then some ("image:" ++ n) else fs m
  | .printed _ => fs

/-- Directory state after a run that started from `fs`. -/
def finalFs (fs : String → Option String) (r : List Eff × Option String) :
    String → Option String :=
  r.1.foldl applyEff fs

/-! ## Helper lemmas -/

/-- A single `np.random.uniform(low, high)` draw lies in `[low, high)`. -/
lemma uniformAt_bounds {u : UnitStream} (hu : ValidStream u) (s : ℕ)
    {low high : ℚ} (hlh : low < high) (i : ℕ) :
    low ≤ uniformAt u s low high i ∧ uniformAt u s low high i < high := by
  obtain ⟨h0, h1⟩ := hu s i
  have hpos : 0 < high - low := sub_pos.mpr hlh
  constructor
  · have := mul_nonneg hpos.le h0
    simp only [uniformAt]
    linarith
  · have := (mul_lt_mul_of_pos_left h1 hpos)
    simp only [uniformAt]
    nlinarith

/-- Every element of a `np.random.uniform(low, high, n)` block lies in
`[low, high)`. -/
lemma uniformList_bounds {u : UnitStream} (hu : ValidStream u) (s : ℕ)
    {low high : ℚ} (hlh : low < high) (start n : ℕ) :
    ∀ q ∈ uniformList u s low high start n, low ≤ q ∧ q < high := by
  intro q hq
  simp only [uniformList, List.mem_map, List.mem_range] at hq
  obtain ⟨k, -, rfl⟩ := hq
  exact uniformAt_bounds hu s hlh (start + k)

/-- Running a failure-free suffix performs each step's effects once, in
order. -/
lemma runSteps_ok (fail : Step → Option String) (steps : List Step)
    (h : ∀ s ∈ steps, fail s = none) :
    runSteps fail steps = (steps.flatMap effOf, none) := by
  induction steps with
  | nil => rfl
  | cons s rest ih =>
    have hs : fail s = none := h s (List.mem_cons_self s rest)
    have hrest := ih (fun t ht => h t (List.mem_cons_of_mem s ht))
    simp [runSteps, hs, hrest]

/-- The first raised exception propagates uncaught: the run performs exactly
the effects of the completed prefix, and no later step executes. -/
lemma runSteps_error (fail : Step → Option String) (pre : List Step)
    (s : Step) (post : List Step) (e : String)
    (hpre : ∀ t ∈ pre, fail t = none) (hs : fail s = some e) :
    runSteps fail (pre ++ s :: post) = (pre.flatMap effOf, some e) := by
  induction pre with
  | nil => simp [runSteps, hs]
  | cons p rest ih =>
    have hp : fail p = none := hpre p (List.mem_cons_self p rest)
    have hrest := ih (fun t ht => hpre t (List.mem_cons_of_mem p ht))
    simp [runSteps, hp, hrest]

/-- Length of a `np.random.uniform(low, high, n)` block. -/
lemma uniformList_length (u : UnitStream) (s : ℕ) (low high : ℚ) (start n : ℕ) :
    (uniformList u s low high start n).length = n := by
  simp [uniformList]

/-- The rectangle `(x0, x1, y0, y1)` lies inside the canvas `[0,10]×[0,10]`. -/
def rectInCanvas (b : ℚ × ℚ × ℚ × ℚ) : Prop :=
  0 ≤ b.1 ∧ b.2.1 ≤ 10 ∧ 0 ≤ b.2.2.1 ∧ b.2.2.2 ≤ 10

/-- Every point of a mesh point cloud lies inside the rectangle
`(x0, x1, y0, y1)` (x-samples in `[x0, x1)`, y-samples in `[y0, y1)`). -/
def cloudInRect (b : ℚ × ℚ × ℚ × ℚ) (r : List ℚ × List ℚ) : Prop :=
  (∀ x ∈ r.1, b.1 ≤ x ∧ x < b.2.1) ∧ (∀ y ∈ r.2, b.2.2.1 ≤ y ∧ y < b.2.2.2)

/-! ## Claim theorems -/

/-- C1: the script is deterministic.  Its only contact with the environment is
the seeded PRNG stream, so any two executions whose PRNG agrees produce the
same randomly generated mesh points, particle positions, particle sizes and
particle opacities, and the same drawn layers — whatever the rest of the
environment looks like. -/
theorem run_determinism (e1 e2 : Env) (h : e1.unitStream = e2.unitStream) :
    randomContent e1 = randomContent e2 ∧ drawnContent e1 = drawnContent e2 := by
  unfold randomContent drawnContent
  rw [h]
  exact ⟨rfl, rfl⟩

theorem run_determinism_witness :
    randomContent ⟨fun _ _ => 1/2, 0, fun _ => none⟩ =
        randomContent ⟨fun _ _ => 1/2, 7, fun _ => some "stale"⟩ ∧
      drawnContent ⟨fun _ _ => 1/2, 0, fun _ => none⟩ =
        drawnContent ⟨fun _ _ => 1/2, 7, fun _ => some "stale"⟩ :=
  run_determinism ⟨fun _ _ => 1/2, 0, fun _ => none⟩
    ⟨fun _ _ => 1/2, 7, fun _ => some "stale"⟩ rfl

/-- C2: one run issues, in this order, one gradient image, five wave strokes,
three triangulated mesh regions, one quiver field, four text labels, three
pairs of concentric circles (six circle patches), thirty faint grid lines,
two corner accents of two segments each, and exactly eighty particle dots —
and nothing else. -/
theorem draw_layer_sequence (u : UnitStream) :
    (drawOps u).map DrawOp.kind =
      [.imshow] ++ List.replicate 5 .wave ++ List.replicate 3 .triplot
        ++ [.quiver] ++ List.replicate 4 .text ++ List.replicate 6 .circle
        ++ List.replicate 30 .gridline ++ List.replicate 4 .cornerSeg
        ++ List.replicate 80 .particle := by
  rfl

/-- C3 counterexample: the saved bitmaps are not figure size × DPI.  The
equal-aspect axes box is a 10.8-inch square and `bbox_inches='tight'` crops
the saved file to it, so both files measure 2160×2160 pixels, while figure
size × DPI would be 3840×2160. -/
theorem saved_dims_counterexample :
    savedPixelDims pngSave = (2160, 2160) ∧
      figurePixelDims pngSave = (3840, 2160) ∧
      savedPixelDims pngSave ≠ figurePixelDims pngSave := by
  norm_num [savedPixelDims, figurePixelDims, axesBoxSideIn, figWidthIn,
    figHeightIn, xlimSpan, ylimSpan, pngSave, Prod.ext_iff]

/-- C3 (amended): both output files have the same pixel dimensions, namely the
square equal-aspect axes box (10.8 in) times 200 DPI — 2160×2160 pixels. -/
theorem saved_dims_square :
    savedPixelDims pngSave = savedPixelDims jpgSave ∧
      savedPixelDims pngSave = (2160, 2160) ∧
      savedPixelDims jpgSave = (2160, 2160) := by
  norm_num [savedPixelDims, axesBoxSideIn, figWidthIn, figHeightIn, xlimSpan,
    ylimSpan, pngSave, jpgSave, Prod.ext_iff]

/-- C7: the PNG is saved with `transparent=True` and `facecolor='none'` and
its format carries an alpha channel; the JPEG is saved with the opaque fill
`'#1937b4'` and its format has no alpha channel. -/
theorem output_alpha_channels :
    pngSave.transparent = true ∧ pngSave.facecolor = "none" ∧
      pngSave.hasAlphaChannel = true ∧
      jpgSave.transparent = false ∧ jpgSave.facecolor = "#1937b4" ∧
      jpgSave.hasAlphaChannel = false := by
  decide

/-- C10: each `circles` entry draws exactly two unfilled circles at the same
centre — the inner radius exactly 0.6× the outer, the inner linewidth exactly
0.6× the outer, the inner alpha exactly 0.5× the outer — and both circles lie
entirely inside the canvas `[0,10]×[0,10]`. -/
theorem concentric_circle_pairs (cx cy radius alpha_val lw : ℚ)
    (h : (cx, cy, radius, alpha_val, lw) ∈ circles) :
    circlePair cx cy radius alpha_val lw =
        [.circle cx cy radius lw alpha_val false,
         .circle cx cy (radius * (3/5)) (lw * (3/5)) (alpha_val * (1/2)) false] ∧
      0 < radius ∧
      radius ≤ cx ∧ cx + radius ≤ 10 ∧ radius ≤ cy ∧ cy + radius ≤ 10 ∧
      radius * (3/5) ≤ cx ∧ cx + radius * (3/5) ≤ 10 ∧
      radius * (3/5) ≤ cy ∧ cy + radius * (3/5) ≤ 10 := by
  refine ⟨rfl, ?_⟩
  simp only [circles, List.mem_cons, List.not_mem_nil, or_false, Prod.mk.injEq] at h
  rcases h with ⟨h1, h2, h3, h4, h5⟩ | ⟨h1, h2, h3, h4, h5⟩ | ⟨h1, h2, h3, h4, h5⟩ <;>
    subst h1 <;> subst h2 <;> subst h3 <;> subst h4 <;> subst h5 <;> norm_num

theorem concentric_circle_pairs_witness :
    ((11/5 : ℚ), (36/5 : ℚ), (4/5 : ℚ), (1/10 : ℚ), (5/2 : ℚ)) ∈ circles ∧
      (circlePair (11/5) (36/5) (4/5) (1/10) (5/2) =
          [.circle (11/5) (36/5) (4/5) (5/2) (1/10) false,
           .circle (11/5) (36/5) ((4/5) * (3/5)) ((5/2) * (3/5)) ((1/10) * (1/2)) false] ∧
        (0 : ℚ) < 4/5 ∧
        (4/5 : ℚ) ≤ 11/5 ∧ (11/5 : ℚ) + 4/5 ≤ 10 ∧
        (4/5 : ℚ) ≤ 36/5 ∧ (36/5 : ℚ) + 4/5 ≤ 10 ∧
        (4/5 : ℚ) * (3/5) ≤ 11/5 ∧ (11/5 : ℚ) + (4/5) * (3/5) ≤ 10 ∧
        (4/5 : ℚ) * (3/5) ≤ 36/5 ∧ (36/5 : ℚ) + (4/5) * (3/5) ≤ 10) :=
  ⟨by simp [circles], concentric_circle_pairs (11/5) (36/5) (4/5) (1/10) (5/2) (by simp [circles])⟩

/-- C4: paired with its `mesh_regions` entry, each generated mesh cloud has
`n_pts` x- and y-coordinates, all inside that region's rectangle, and the
rectangle sits inside the canvas `[0,10]×[0,10]`; all eighty particle
positions lie in `[0,10]×[0,10]`. -/
theorem random_points_within_canvas (u : UnitStream) (hu : ValidStream u) :
    (∀ pr ∈ mesh_regions.zip (meshLayers u),
        rectInCanvas pr.1.1 ∧ cloudInRect pr.1.1 pr.2 ∧
          pr.2.1.length = pr.1.2 ∧ pr.2.2.length = pr.1.2) ∧
      (∀ x ∈ px u, 0 ≤ x ∧ x ≤ 10) ∧ (∀ y ∈ py u, 0 ≤ y ∧ y ≤ 10) ∧
      (px u).length = n_particles ∧ (py u).length = n_particles := by
  refine ⟨?_, ?_, ?_, uniformList_length .., uniformList_length ..⟩
  · intro pr hpr
    simp only [mesh_regions, meshLayers, meshRegionPts, List.zip_cons_cons,
      List.zip_nil_right, List.mem_cons, List.not_mem_nil, or_false] at hpr
    rcases hpr with rfl | rfl | rfl <;>
      exact ⟨by norm_num [rectInCanvas],
        ⟨fun x hx => uniformList_bounds hu 42 (by norm_num) _ _ x hx,
         fun y hy => uniformList_bounds hu 42 (by norm_num) _ _ y hy⟩,
        uniformList_length .., uniformList_length ..⟩
  · intro x hx
    obtain ⟨h0, h10⟩ := uniformList_bounds hu 123 (by norm_num) 0 n_particles x hx
    exact ⟨h0, h10.le⟩
  · intro y hy
    obtain ⟨h0, h10⟩ := uniformList_bounds hu 123 (by norm_num) n_particles n_particles y hy
    exact ⟨h0, h10.le⟩

theorem random_points_within_canvas_witness :
    ValidStream (fun _ _ => 1/2) ∧
      ((∀ pr ∈ mesh_regions.zip (meshLayers (fun _ _ => 1/2)),
          rectInCanvas pr.1.1 ∧ cloudInRect pr.1.1 pr.2 ∧
            pr.2.1.length = pr.1.2 ∧ pr.2.2.length = pr.1.2) ∧
        (∀ x ∈ px (fun _ _ => 1/2), 0 ≤ x ∧ x ≤ 10) ∧
        (∀ y ∈ py (fun _ _ => 1/2), 0 ≤ y ∧ y ≤ 10) ∧
        (px (fun _ _ => 1/2)).length = n_particles ∧
        (py (fun _ _ => 1/2)).length = n_particles) :=
  ⟨fun _ _ => by norm_num,
   random_points_within_canvas (fun _ _ => 1/2) (fun _ _ => by norm_num)⟩

/-- C9: for every wave configuration and every abscissa `t ∈ [0, 10]`, the
wave ordinate stays within `[offset - 1.5, offset + 1.5]`; every offset lies
in `[4, 6]`, so every wave stays within the band `[2.5, 7.5]`, strictly
inside the canvas. -/
theorem wave_band (freq phaseCoeff alpha_val lw offset : ℚ)
    (h : (freq, phaseCoeff, alpha_val, lw, offset) ∈ wave_configs)
    (t : ℝ) (ht0 : 0 ≤ t) (ht10 : t ≤ 10) :
    (offset : ℝ) - 1.5 ≤ waveY freq phaseCoeff offset t ∧
      waveY freq phaseCoeff offset t ≤ (offset : ℝ) + 1.5 ∧
      4 ≤ offset ∧ offset ≤ 6 ∧
      (2.5 : ℝ) ≤ waveY freq phaseCoeff offset t ∧
      waveY freq phaseCoeff offset t ≤ (7.5 : ℝ) := by
  have h1 := Real.neg_one_le_sin ((freq : ℝ) * t + (phaseCoeff : ℝ) * Real.pi)
  have h2 := Real.sin_le_one ((freq : ℝ) * t + (phaseCoeff : ℝ) * Real.pi)
  have h3 := Real.neg_one_le_sin ((freq : ℝ) * 2 * t)
  have h4 := Real.sin_le_one ((freq : ℝ) * 2 * t)
  have hlo : (offset : ℝ) - 1.5 ≤ waveY freq phaseCoeff offset t := by
    unfold waveY; nlinarith
  have hhi : waveY freq phaseCoeff offset t ≤ (offset : ℝ) + 1.5 := by
    unfold waveY; nlinarith
  have hoff : 4 ≤ offset ∧ offset ≤ 6 := by
    simp only [wave_configs, List.mem_cons, List.not_mem_nil, or_false,
      Prod.mk.injEq] at h
    rcases h with ⟨-, -, -, -, h5⟩ | ⟨-, -, -, -, h5⟩ | ⟨-, -, -, -, h5⟩ |
      ⟨-, -, -, -, h5⟩ | ⟨-, -, -, -, h5⟩ <;> subst h5 <;> norm_num
  have h4R : (4 : ℝ) ≤ (offset : ℝ) := by exact_mod_cast hoff.1
  have h6R : (offset : ℝ) ≤ 6 := by exact_mod_cast hoff.2
  exact ⟨hlo, hhi, hoff.1, hoff.2, by linarith, by linarith⟩

theorem wave_band_witness :
    ((9/5 : ℚ), (0 : ℚ), (1/5 : ℚ), (5/2 : ℚ), (5 : ℚ)) ∈ wave_configs ∧
      (((5 : ℚ) : ℝ) - 1.5 ≤ waveY (9/5) 0 5 0 ∧
        waveY (9/5) 0 5 0 ≤ ((5 : ℚ) : ℝ) + 1.5 ∧
        (4 : ℚ) ≤ 5 ∧ (5 : ℚ) ≤ 6 ∧
        (2.5 : ℝ) ≤ waveY (9/5) 0 5 0 ∧ waveY (9/5) 0 5 0 ≤ (7.5 : ℝ)) :=
  ⟨by simp [wave_configs],
   wave_band (9/5) 0 (1/5) (5/2) 5 (by simp [wave_configs]) 0 le_rfl (by norm_num)⟩

/-- C5: the opacity of every drawing call of a run — the literal alphas, the
particle alphas drawn from `uniform(0.05, 0.15)`, and the derived inner-circle
alpha `alpha_val * 0.5` — lies in `[0, 1]`. -/
theorem alphas_in_unit_interval (u : UnitStream) (hu : ValidStream u) :
    ∀ op ∈ drawOps u, 0 ≤ op.alpha ∧ op.alpha ≤ 1 := by
  intro op hop
  simp only [drawOps, List.mem_append] at hop
  rcases hop with ((((((((h | h) | h) | h) | h) | h) | h) | h) | h)
  · -- gradient background
    simp only [backgroundOps, List.mem_cons, List.not_mem_nil, or_false] at h
    subst h; norm_num [DrawOp.alpha]
  · -- wave strokes
    simp only [waveOps, wave_configs, List.map_cons, List.map_nil, List.mem_cons,
      List.not_mem_nil, or_false] at h
    rcases h with rfl | rfl | rfl | rfl | rfl <;> norm_num [DrawOp.alpha]
  · -- mesh triplots
    simp only [meshOps, meshLayers, List.map_cons, List.map_nil, List.mem_cons,
      List.not_mem_nil, or_false] at h
    rcases h with rfl | rfl | rfl <;> norm_num [DrawOp.alpha]
  · -- quiver field
    simp only [quiverOps, List.mem_cons, List.not_mem_nil, or_false] at h
    subst h; norm_num [DrawOp.alpha]
  · -- text labels
    simp only [textOps, List.mem_map] at h
    obtain ⟨⟨eq, pos, fsize⟩, -, rfl⟩ := h
    norm_num [DrawOp.alpha]
  · -- circle pairs
    simp only [circleOps, List.mem_flatMap] at h
    obtain ⟨⟨cx, cy, radius, alpha_val, lw⟩, hc, hop⟩ := h
    simp only [circles, List.mem_cons, List.not_mem_nil, or_false,
      Prod.mk.injEq] at hc
    simp only [circlePair, List.mem_cons, List.not_mem_nil, or_false] at hop
    rcases hc with ⟨-, -, -, rfl, -⟩ | ⟨-, -, -, rfl, -⟩ | ⟨-, -, -, rfl, -⟩ <;>
      rcases hop with rfl | rfl <;> norm_num [DrawOp.alpha]
  · -- grid overlay
    simp only [gridOps, List.mem_flatMap] at h
    obtain ⟨i, -, hop⟩ := h
    simp only [List.mem_cons, List.not_mem_nil, or_false] at hop
    rcases hop with rfl | rfl <;> norm_num [DrawOp.alpha]
  · -- corner accents
    simp only [cornerOps, List.mem_flatMap] at h
    obtain ⟨⟨cx, cy, dx, dy⟩, -, hop⟩ := h
    simp only [List.mem_cons, List.not_mem_nil, or_false] at hop
    rcases hop with rfl | rfl <;> norm_num [DrawOp.alpha]
  · -- particles
    simp only [particleOps, List.mem_map, List.mem_range] at h
    obtain ⟨k, -, rfl⟩ := h
    obtain ⟨hlo, hhi⟩ :=
      uniformAt_bounds hu 123 (show (1/20 : ℚ) < 3/20 by norm_num)
        (3 * n_particles + k)
    simp only [DrawOp.alpha]
    constructor <;> linarith

theorem alphas_in_unit_interval_witness :
    ValidStream (fun _ _ => 1/2) ∧
      ∀ op ∈ drawOps (fun _ _ => 1/2), 0 ≤ op.alpha ∧ op.alpha ≤ 1 :=
  ⟨fun _ _ => by norm_num,
   alphas_in_unit_interval (fun _ _ => 1/2) (fun _ _ => by norm_num)⟩

/-- C6: the script has no error handling.  A failure-free run performs every
stage once, writes exactly the two output files (overwriting whatever a
pre-existing directory held under those names) and exits 0; if any stage
raises, the exception propagates uncaught, the process stops there with a
non-zero exit, only the effects of the completed prefix happen, and nothing
is retried. -/
theorem process_behaviour (fail : Step → Option String) :
    ((∀ s, fail s = none) →
        runScript fail = (script.flatMap effOf, none) ∧
          exitCode (runScript fail) = 0 ∧
          writtenFiles (runScript fail) =
            ["hero-background.png", "hero-background.jpg"] ∧
          ∀ fs0 : String → Option String,
            finalFs fs0 (runScript fail) "hero-background.png" =
                some "image:hero-background.png" ∧
              finalFs fs0 (runScript fail) "hero-background.jpg" =
                some "image:hero-background.jpg") ∧
      ∀ pre s post e, script = pre ++ s :: post →
        (∀ t ∈ pre, fail t = none) → fail s = some e →
        runScript fail = (pre.flatMap effOf, some e) ∧
          exitCode (runScript fail) = 1 := by
  constructor
  · intro hall
    have hok : runScript fail = (script.flatMap effOf, none) :=
      runSteps_ok fail script (fun s _ => hall s)
    refine ⟨hok, ?_, ?_, ?_⟩
    · rw [hok]; rfl
    · rw [hok]; rfl
    · intro fs0; rw [hok]; exact ⟨rfl, rfl⟩
  · intro pre s post e heq hpre hs
    have herr : runScript fail = (pre.flatMap effOf, some e) := by
      unfold runScript
      rw [heq]
      exact runSteps_error fail pre s post e hpre hs
    exact ⟨herr, by rw [herr]; rfl⟩

theorem process_behaviour_witness :
    runScript (fun _ => none) = (script.flatMap effOf, none) ∧
      exitCode (runScript (fun s =>
        if s = .save "hero-background.jpg" then some "disk full" else none)) = 1 :=
  ⟨((process_behaviour (fun _ => none)).1 (fun _ => rfl)).1,
   ((process_behaviour (fun s =>
        if s = .save "hero-background.jpg" then some "disk full" else none)).2
      [.render, .save "hero-background.png"] (.save "hero-background.jpg")
      [.closeFig,
       .printMsg "✓ High-quality background images generated successfully!",
       .printMsg "  - hero-background.png (transparent, 200 DPI)",
       .printMsg "  - hero-background.jpg (solid background, 200 DPI)"]
      "disk full" rfl (by intro t ht; fin_cases ht <;> rfl) (by rfl)).2⟩

/-- C8: the flow field is evaluated on a 12×12 grid whose coordinates are
evenly spaced (step `8.4/11`) from `0.8` to `9.2` inclusive, and at each grid
cell `U` and `V` are exactly the vortex term of magnitude `exp(-r/4)/r`
perpendicular to the displacement from `(5, 5)` plus the inward sink term
`-0.15` times the displacement, with `r = sqrt(dx² + dy²) + 0.1`. -/
theorem flow_field_spec (i j : ℕ) (hi : i < 12) (hj : j < 12) :
    flowU i j = -(flowDy i : ℝ) / flowR i j * Real.exp (-flowR i j / 4)
        - 0.15 * (flowDx j : ℝ) ∧
      flowV i j = (flowDx j : ℝ) / flowR i j * Real.exp (-flowR i j / 4)
        - 0.15 * (flowDy i : ℝ) ∧
      flowR i j = Real.sqrt ((flowDx j : ℝ) ^ 2 + (flowDy i : ℝ) ^ 2) + 0.1 ∧
      flowDx j = gridCoord j - 5 ∧ flowDy i = gridCoord i - 5 ∧
      gridCoord 0 = 4/5 ∧ gridCoord 11 = 46/5 ∧
      4/5 ≤ gridCoord i ∧ gridCoord i ≤ 46/5 ∧
      4/5 ≤ gridCoord j ∧ gridCoord j ≤ 46/5 ∧
      ∀ k : ℕ, gridCoord (k + 1) - gridCoord k = 42/55 := by
  have hcoord : ∀ m : ℕ, m < 12 → 4/5 ≤ gridCoord m ∧ gridCoord m ≤ 46/5 := by
    intro m hm
    have hm11 : (m : ℚ) ≤ 11 := by exact_mod_cast Nat.lt_succ_iff.mp hm
    have hm0 : (0 : ℚ) ≤ (m : ℚ) := Nat.cast_nonneg m
    have hc : gridCoord m = 4/5 + (m : ℚ) * (42/55) := by
      unfold gridCoord; norm_num
    constructor
    · rw [hc]; nlinarith
    · rw [hc]; nlinarith
  refine ⟨by unfold flowU; ring, by unfold flowV; ring, rfl, rfl, rfl,
    by norm_num [gridCoord], by norm_num [gridCoord],
    (hcoord i hi).1, (hcoord i hi).2, (hcoord j hj).1, (hcoord j hj).2, ?_⟩
  intro k
  unfold gridCoord
  push_cast
  ring

theorem flow_field_spec_witness :
    (0 : ℕ) < 12 ∧
      (flowU 0 0 = -(flowDy 0 : ℝ) / flowR 0 0 * Real.exp (-flowR 0 0 / 4)
          - 0.15 * (flowDx 0 : ℝ) ∧
        flowV 0 0 = (flowDx 0 : ℝ) / flowR 0 0 * Real.exp (-flowR 0 0 / 4)
          - 0.15 * (flowDy 0 : ℝ) ∧
        flowR 0 0 = Real.sqrt ((flowDx 0 : ℝ) ^ 2 + (flowDy 0 : ℝ) ^ 2) + 0.1 ∧
        flowDx 0 = gridCoord 0 - 5 ∧ flowDy 0 = gridCoord 0 - 5 ∧
        gridCoord 0 = 4/5 ∧ gridCoord 11 = 46/5 ∧
        4/5 ≤ gridCoord 0 ∧ gridCoord 0 ≤ 46/5 ∧
        4/5 ≤ gridCoord 0 ∧ gridCoord 0 ≤ 46/5 ∧
        ∀ k : ℕ, gridCoord (k + 1) - gridCoord k = 42/55) :=
  ⟨by norm_num, flow_field_spec 0 0 (by norm_num) (by norm_num)⟩

end HeroBackground
